import Mathlib

/-!
# Verification of the PDF quiz generator / grader core

Shallow embedding of `src/pages/Question_Generator.py` and
`src/pages/PDF_Summarizer.py` (the quiz round trip and the text chunker),
together with reference definitions taken from the specification where a
claim compares the code against the spec algorithm.

Python strings are modelled as `String` / `List Char`; the Python `json`
standard-library decoder is modelled by `json_loads` below (values, arrays,
objects, strings with the common escapes, integer and decimal numbers;
like Python it rejects trailing commas and any trailing garbage).  Numbers
are kept exactly as a mantissa and a power-of-ten denominator, so no
floating point is involved.  A raised Python exception is modelled by the
`Except`/`Option` failure value of the corresponding Lean function.
-/

/-- Decoded JSON value.  `num m e` denotes the decimal number `m / 10 ^ e`
(so `1` is `num 1 0` and `1.5` is `num 15 1`). -/
inductive Json where
  | null : Json
  | bool (b : Bool) : Json
  | num (mantissa : Int) (exp10 : Nat) : Json
  | str (s : String) : Json
  | arr (elems : List Json) : Json
  | obj (members : List (String × Json)) : Json

/-- Skip JSON whitespace, as the Python decoder does between tokens. -/
def skipWs : List Char → List Char
  | [] => []
  | c :: cs => if c = ' ' ∨ c = '\t' ∨ c = '\n' ∨ c = '\r' then skipWs cs else c :: cs

/-- Read a run of decimal digits, returning value, digit count, rest. -/
def parseDigits : List Char → Nat → Nat → Nat × Nat × List Char
  | [], acc, cnt => (acc, cnt, [])
  | c :: cs, acc, cnt =>
    if c.isDigit then parseDigits cs (acc * 10 + (c.toNat - 48)) (cnt + 1)
    else (acc, cnt, c :: cs)

/-- Body of a JSON string after the opening quote, with the common escapes. -/
def parseStringBody : List Char → List Char → Option (String × List Char)
  | [], _ => none
  | '"' :: rest, acc => some (String.mk acc.reverse, rest)
  | '\\' :: rest, acc =>
    match rest with
    | [] => none
    | e :: rest2 =>
      if e = '"' then parseStringBody rest2 ('"' :: acc)
      else if e = '\\' then parseStringBody rest2 ('\\' :: acc)
      else if e = '/' then parseStringBody rest2 ('/' :: acc)
      else if e = 'n' then parseStringBody rest2 ('\n' :: acc)
      else if e = 't' then parseStringBody rest2 ('\t' :: acc)
      else if e = 'r' then parseStringBody rest2 ('\r' :: acc)
      else none
  | c :: rest, acc => parseStringBody rest (c :: acc)

/-- JSON number: optional minus, integer digits, optional fraction digits. -/
def parseNumber (s : List Char) : Option (Json × List Char) :=
  let sgn : Bool × List Char :=
    match s with
    | '-' :: t => (true, t)
    | _ => (false, s)
  match parseDigits sgn.2 0 0 with
  | (ip, ipCnt, rest1) =>
    if ipCnt = 0 then none
    else
      match rest1 with
      | '.' :: t =>
        match parseDigits t 0 0 with
        | (fp, fpCnt, rest2) =>
          if fpCnt = 0 then none
          else
            let mant : Int := Int.ofNat (ip * 10 ^ fpCnt + fp)
            some (Json.num (if sgn.1 then -mant else mant) fpCnt, rest2)
      | _ => some (Json.num (if sgn.1 then -(Int.ofNat ip) else Int.ofNat ip) 0, rest1)

mutual

/-- Fuel-indexed recursive-descent JSON value reader (model of the Python
`json` decoder; the fuel is an upper bound on nesting, and `json_loads`
supplies more fuel than any input can consume). -/
def parseValue : Nat → List Char → Option (Json × List Char)
  | 0, _ => none
  | Nat.succ fuel, s =>
    match skipWs s with
    | [] => none
    | 'n' :: cs =>
      match cs with
      | 'u' :: 'l' :: 'l' :: rest => some (Json.null, rest)
      | _ => none
    | 't' :: cs =>
      match cs with
      | 'r' :: 'u' :: 'e' :: rest => some (Json.bool true, rest)
      | _ => none
    | 'f' :: cs =>
      match cs with
      | 'a' :: 'l' :: 's' :: 'e' :: rest => some (Json.bool false, rest)
      | _ => none
    | '"' :: cs => (parseStringBody cs []).map (fun p => (Json.str p.1, p.2))
    | '[' :: cs =>
      match skipWs cs with
      | ']' :: rest => some (Json.arr [], rest)
      | _ => parseArrayItems fuel cs []
    | '\x7b' :: cs =>
      match skipWs cs with
      | '\x7d' :: rest => some (Json.obj [], rest)
      | _ => parseObjItems fuel cs []
    | c :: cs =>
      if c = '-' ∨ c.isDigit then parseNumber (c :: cs) else none

/-- Comma-separated array elements up to the closing bracket; like the
Python decoder, a comma must be followed by an element (no trailing comma). -/
def parseArrayItems : Nat → List Char → List Json → Option (Json × List Char)
  | 0, _, _ => none
  | Nat.succ fuel, s, acc =>
    match parseValue fuel s with
    | none => none
    | some (v, rest) =>
      match skipWs rest with
      | ',' :: rest2 => parseArrayItems fuel rest2 (v :: acc)
      | ']' :: rest2 => some (Json.arr (v :: acc).reverse, rest2)
      | _ => none

/-- Comma-separated `"key": value` members up to the closing brace. -/
def parseObjItems : Nat → List Char → List (String × Json) → Option (Json × List Char)
  | 0, _, _ => none
  | Nat.succ fuel, s, acc =>
    match skipWs s with
    | '"' :: cs =>
      match parseStringBody cs [] with
      | none => none
      | some (key, rest) =>
        match skipWs rest with
        | ':' :: rest2 =>
          match parseValue fuel rest2 with
          | none => none
          | some (v, rest3) =>
            match skipWs rest3 with
            | ',' :: rest4 => parseObjItems fuel rest4 ((key, v) :: acc)
            | '\x7d' :: rest4 => some (Json.obj ((key, v) :: acc).reverse, rest4)
            | _ => none
        | _ => none
    | _ => none

end

/-- Model of Python `json.loads`: decode one value, allow surrounding
whitespace, fail on any other leftover input. -/
def json_loads (s : String) : Option Json :=
  match parseValue (s.data.length + 1) s.data with
  | some (v, rest) => if skipWs rest = [] then some v else none
  | none => none

/-- Python `str.strip()`: drop leading and trailing whitespace. -/
def pyStrip (s : String) : String :=
  String.mk (((s.data.dropWhile Char.isWhitespace).reverse.dropWhile Char.isWhitespace).reverse)

/-- Index of the first occurrence of `c`, Python `str.find` (as an `Option`). -/
def firstIdx (c : Char) (l : List Char) : Option Nat :=
  l.findIdx? (fun a => a = c)

/-- Index of the last occurrence of `c`, Python `str.rfind` (as an `Option`). -/
def lastIdx (c : Char) (l : List Char) : Option Nat :=
  (l.reverse.findIdx? (fun a => a = c)).map (fun i => l.length - 1 - i)

/-- Python slice `l[s:e]` on a character list. -/
def pySliceList (l : List Char) (s e : Nat) : List Char :=
  (l.drop s).take (e - s)

/-- The exception raised when parsing a completion fails.
`noJsonFound raw` models the `RuntimeError` branch whose message embeds the
whole raw completion (`f"Failed to parse ... Raw response:\n{raw}"`);
`decodeError doc` models the `json.JSONDecodeError` raised by the second
`json.loads` call, which carries only the extracted substring `doc`, not
the original raw completion. -/
inductive ParseFailure where
  | decodeError (doc : String) : ParseFailure
  | noJsonFound (raw : String) : ParseFailure
deriving DecidableEq

/-- The raw completion text embedded in the exception that the UI displays,
when the exception carries it. -/
def rawCarried : ParseFailure → Option String
  | ParseFailure.noJsonFound raw => some raw
  | ParseFailure.decodeError _ => none

/-- Lines 104–116 of `ask_gemini_for_questions`: try `json.loads(raw)`;
on failure strip whitespace, extract `cleaned[start:end+1]` between the
first `[` and the last `]` and decode that; raise otherwise. -/
def repairQuestions (raw : String) : Except ParseFailure Json :=
  match json_loads raw with
  | some parsed => Except.ok parsed
  | none =>
    let cleaned := pyStrip raw
    match firstIdx '[' cleaned.data, lastIdx ']' cleaned.data with
    | some s, some e =>
      let maybe := String.mk (pySliceList cleaned.data s (e + 1))
      match json_loads maybe with
      | some parsed => Except.ok parsed
      | none => Except.error (ParseFailure.decodeError maybe)
    | some _, none => Except.error (ParseFailure.noJsonFound raw)
    | none, _ => Except.error (ParseFailure.noJsonFound raw)

/-- Lines 194–204 of `ask_gemini_to_grade`: identical shape, with `\x7b`
and `\x7d` as the bracket pair. -/
def repairGrading (raw : String) : Except ParseFailure Json :=
  match json_loads raw with
  | some parsed => Except.ok parsed
  | none =>
    let cleaned := pyStrip raw
    match firstIdx '\x7b' cleaned.data, lastIdx '\x7d' cleaned.data with
    | some s, some e =>
      let maybe := String.mk (pySliceList cleaned.data s (e + 1))
      match json_loads maybe with
      | some parsed => Except.ok parsed
      | none => Except.error (ParseFailure.decodeError maybe)
    | some _, none => Except.error (ParseFailure.noJsonFound raw)
    | none, _ => Except.error (ParseFailure.noJsonFound raw)

/-- Success value of an `Except`, for comparing parse pipelines. -/
def exceptToOption : Except ParseFailure Json → Option Json
  | Except.ok v => some v
  | Except.error _ => none

/-! ## Question construction (`Question` dataclass and the loop at lines 118–129) -/

/-- The `Question` dataclass.  The Python fields `qtype` and `question` are
annotated `str` but the constructor also accepts `None` (a missing JSON
field); both are therefore modelled as `Option String`. -/
structure Question where
  id : Int
  qtype : Option String
  question : Option String
  options : List String
  correct_answer : Option String := none
  explanation : Option String := none
deriving DecidableEq

/-- Python `dict.get(key)` on a decoded JSON object (`None` when absent). -/
def jget (j : Json) (key : String) : Option Json :=
  match j with
  | Json.obj kvs => (kvs.find? (fun p => p.1 = key)).map Prod.snd
  | _ => none

/-- A Python list comprehension or loop that may raise on an element:
`none` as soon as `f` fails on some element, otherwise all results in order. -/
def optionMapList {α β : Type} (f : α → Option β) : List α → Option (List β)
  | [] => some []
  | a :: l =>
    match f a, optionMapList f l with
    | some b, some bs => some (b :: bs)
    | _, _ => none

/-- Python `int(...)` truncation toward zero of the decimal `m / 10 ^ e`. -/
def pyIntTrunc (m : Int) (e : Nat) : Int :=
  if e = 0 then m
  else if m < 0 then -(Int.ofNat (m.natAbs / 10 ^ e)) else Int.ofNat (m.natAbs / 10 ^ e)

/-- Python `int(str)` for an optionally signed digit string. -/
def pyIntOfStr (s : String) : Option Int :=
  match s.data with
  | '-' :: t =>
    match parseDigits t 0 0 with
    | (v, cnt, rest) => if cnt ≠ 0 ∧ rest = [] then some (-(Int.ofNat v)) else none
  | t =>
    match parseDigits t 0 0 with
    | (v, cnt, rest) => if cnt ≠ 0 ∧ rest = [] then some (Int.ofNat v) else none

/-- Python `int(x)` on a decoded JSON field; `none` models a raised
`TypeError`/`ValueError` (in particular `int(None)` when the key is absent). -/
def pyIntOfField : Option Json → Option Int
  | some (Json.num m e) => some (pyIntTrunc m e)
  | some (Json.bool b) => some (if b then 1 else 0)
  | some (Json.str s) => pyIntOfStr s
  | _ => none

/-- Decimal rendering of `m / 10 ^ e`, Python `str()` of the number. -/
def pyNumRepr (m : Int) (e : Nat) : String :=
  if e = 0 then toString m
  else
    let s := toString m.natAbs
    let s := String.mk (List.replicate (e + 1 - s.length) '0' ++ s.data)
    let k := s.length - e
    (if m < 0 then "-" else "") ++ String.mk (s.data.take k) ++ "." ++ String.mk (s.data.drop k)

/-- Python `str(x)` of a decoded JSON value (array/object rendering is
approximate; no claim depends on those two cases). -/
def pyStr : Json → String
  | Json.str s => s
  | Json.num m e => pyNumRepr m e
  | Json.bool b => if b then "True" else "False"
  | Json.null => "None"
  | Json.arr _ => "[...]"
  | Json.obj _ => "\x7b...\x7d"

/-- A string-or-absent field (`obj.get(k)` stored verbatim); a non-string,
non-null value is outside the modelled subset. -/
def strFieldOrNone : Option Json → Option (Option String)
  | none => some none
  | some Json.null => some none
  | some (Json.str s) => some (some s)
  | some _ => none

/-- `Json.str` contents, else failure. -/
def jsonAsStr : Json → Option String
  | Json.str s => some s
  | _ => none

/-- `obj.get("options", []) or []`: absent or null gives `[]`; a list is
kept verbatim (string elements; others are outside the modelled subset). -/
def optionsField : Option Json → Option (List String)
  | none => some []
  | some Json.null => some []
  | some (Json.arr xs) => optionMapList jsonAsStr xs
  | some _ => none

/-- `str(obj.get("answer")) if obj.get("answer") is not None else None`. -/
def answerField : Option Json → Option String
  | none => none
  | some Json.null => none
  | some j => some (pyStr j)

/-- One iteration of the construction loop (lines 119–128): build a
`Question` from a decoded record, copying every field verbatim.  `none`
models an exception raised inside the loop (e.g. `int(None)` for a missing
`id`). -/
def mkQuestion (obj : Json) : Option Question :=
  match pyIntOfField (jget obj "id"), strFieldOrNone (jget obj "type"),
        strFieldOrNone (jget obj "question"), optionsField (jget obj "options"),
        strFieldOrNone (jget obj "explanation") with
  | some i, some t, some q, some opts, some ex =>
    some { id := i, qtype := t, question := q, options := opts,
           correct_answer := answerField (jget obj "answer"), explanation := ex }
  | _, _, _, _, _ => none

/-! ## Prompt builders (the f-strings at lines 71–101 and 148–192) -/

/-- Python slice `pdf_text[:30000]`. -/
def pySlice30000 (s : String) : String :=
  String.mk (s.data.take 30000)

/-- The generation prompt text before the embedded document slice. -/
def questionPromptHead (num_questions : Nat) : String :=
  "\nYou are an assistant that reads a document and generates educational questions.\n" ++
  "\nInstructions:\n" ++
  "- Read the provided document text delimited by <<DOC>> and <<ENDDOC>>.\n" ++
  "- Produce exactly " ++ toString num_questions ++
  " questions covering the document\x27s main ideas and details.\n" ++
  "- For each question produce either:\n" ++
  "  - an MCQ with 4 options (labelled or unlabelled) and the correct option (single letter or full option text), OR\n" ++
  "  - an open question where the user must type an answer.\n" ++
  "- Output MUST be strict JSON (no extra commentary) with an array of objects:\n" ++
  "[\n" ++
  "  \x7b\n" ++
  "    \"id\": 1,\n" ++
  "    \"type\": \"mcq\" or \"open\",\n" ++
  "    \"question\": \"question text\",\n" ++
  "    \"options\": [\"opt1\",\"opt2\",\"opt3\",\"opt4\"],   // only for mcq\n" ++
  "    \"answer\": \"correct option text or letter\", // internal; grader will use; can be either option text or letter\n" ++
  "    \"explanation\": \"brief explanation of the correct answer\"\n" ++
  "  \x7d,\n" ++
  "  ...\n" ++
  "]\n" ++
  "\nMake sure the JSON is valid. If a question is \x27open\x27, set \"options\": [].\n" ++
  "\nHere is the document:\n<<DOC>>\n"

/-- The generation prompt text after the embedded document slice. -/
def questionPromptTail : String :=
  "\n<<ENDDOC>>\n\nOnly produce the JSON array.\n"

/-- The full generation prompt (lines 71–101): fixed instructions around
`pdf_text[:30000]`. -/
def buildQuestionPrompt (pdf_text : String) (num_questions : Nat) : String :=
  questionPromptHead num_questions ++ pySlice30000 pdf_text ++ questionPromptTail

/-- `ask_gemini_for_questions` (lines 63–129): build the prompt, obtain the
raw completion from the (black-box) completion service, repair/decode it,
then run the construction loop.  `Except.ok none` models a Python exception
raised inside the loop or while iterating a non-array value. -/
def ask_gemini_for_questions (completion : String → String) (pdf_text : String)
    (num_questions : Nat) : Except ParseFailure (Option (List Question)) :=
  let raw := completion (buildQuestionPrompt pdf_text num_questions)
  match repairQuestions raw with
  | Except.error f => Except.error f
  | Except.ok (Json.arr objs) => Except.ok (optionMapList mkQuestion objs)
  | Except.ok _ => Except.ok none

/-! ## Grading round trip (`ask_gemini_to_grade`, lines 131–205) -/

/-- JSON string escaping used by `json.dumps`. -/
def jsonEscape (s : String) : String :=
  String.mk (s.data.foldr (fun c acc =>
    if c = '"' then '\\' :: '"' :: acc
    else if c = '\\' then '\\' :: '\\' :: acc
    else if c = '\n' then '\\' :: 'n' :: acc
    else if c = '\t' then '\\' :: 't' :: acc
    else if c = '\r' then '\\' :: 'r' :: acc
    else c :: acc) [])

/-- `json.dumps` of a string. -/
def dumpsStr (s : String) : String := "\"" ++ jsonEscape s ++ "\""

/-- `json.dumps` of a string-or-`None` field. -/
def dumpsOptStr : Option String → String
  | none => "null"
  | some s => dumpsStr s

/-- `json.dumps` of a list of strings. -/
def dumpsStrList (l : List String) : String :=
  "[" ++ String.intercalate ", " (l.map dumpsStr) ++ "]"

/-- `json.dumps` of one compact question record built at lines 138–146. -/
def dumpsQObj (q : Question) : String :=
  "\x7b\"id\": " ++ toString q.id ++
  ", \"type\": " ++ dumpsOptStr q.qtype ++
  ", \"question\": " ++ dumpsOptStr q.question ++
  ", \"options\": " ++ dumpsStrList q.options ++
  ", \"correct_answer\": " ++ dumpsOptStr q.correct_answer ++ "\x7d"

/-- `json.dumps(qlist)`. -/
def dumpsQList (qs : List Question) : String :=
  "[" ++ String.intercalate ", " (qs.map dumpsQObj) ++ "]"

/-- `json.dumps(user_answers)`: a dict from question id to answer string
(integer keys are stringified by `dumps`). -/
def dumpsAnswers (ans : List (Int × String)) : String :=
  "\x7b" ++ String.intercalate ", "
    (ans.map (fun p => "\"" ++ toString p.1 ++ "\": " ++ dumpsStr p.2)) ++ "\x7d"

/-- The grading prompt text before the embedded document slice. -/
def gradingPromptHead : String :=
  "\nYou are an assistant grader. You will be given:\n" ++
  "- the document text (delimited by <<DOC>> <<ENDDOC>>),\n" ++
  "- the list of questions with their correct answers (delimited by <<QUESTIONS>> <<ENDQUESTIONS>>),\n" ++
  "- and the student\x27s answers (delimited by <<ANSWERS>> <<ENDANSWERS>>).\n" ++
  "\nFor each question, produce:\n" ++
  "- a score (0 or 1 for MCQ and for open questions use partial credit between 0 and 1, to two decimals),\n" ++
  "- an explanation of why the answer is correct/incorrect,\n" ++
  "- and, for open questions, a short ideal answer.\n" ++
  "\nThen also produce a \"total_score\" (sum of the per-question scores) and \"max_score\" (equal to the number of questions, e.g. 6).\n" ++
  "\nOutput MUST be valid JSON with this structure:\n" ++
  "\x7b\n" ++
  "  \"total_score\": float,\n" ++
  "  \"max_score\": float,\n" ++
  "  \"per_question\": [\n" ++
  "    \x7b\n" ++
  "      \"id\": 1,\n" ++
  "      \"score\": float,\n" ++
  "      \"feedback\": \"text\",\n" ++
  "      \"ideal_answer\": \"...\"  // include for open questions; for MCQ can echo the correct option\n" ++
  "    \x7d,\n" ++
  "    ...\n" ++
  "  ]\n" ++
  "\x7d\n" ++
  "\nDocument:\n<<DOC>>\n"

/-- The grading prompt text between the document slice and `json.dumps(qlist)`. -/
def gradingPromptMid1 : String :=
  "\n<<ENDDOC>>\n\nQuestions+answers:\n<<QUESTIONS>>\n"

/-- The grading prompt text between the two `json.dumps` blocks. -/
def gradingPromptMid2 : String :=
  "\n<<ENDQUESTIONS>>\n\nStudent answers:\n<<ANSWERS>>\n"

/-- The grading prompt text after `json.dumps(user_answers)`. -/
def gradingPromptTail : String :=
  "\n<<ENDANSWERS>>\n\nProduce only the JSON.\n"

/-- The full grading prompt (lines 148–192). -/
def buildGradingPrompt (pdf_text : String) (questions : List Question)
    (user_answers : List (Int × String)) : String :=
  gradingPromptHead ++ pySlice30000 pdf_text ++ gradingPromptMid1 ++
  dumpsQList questions ++ gradingPromptMid2 ++ dumpsAnswers user_answers ++
  gradingPromptTail

/-- `ask_gemini_to_grade` (lines 131–205): build the grading prompt, send it
to the completion service, and return the repaired/decoded JSON reply.  The
whole grading verdict, multiple-choice items included, is whatever the
completion reply contains. -/
def ask_gemini_to_grade (completion : String → String) (pdf_text : String)
    (questions : List Question) (user_answers : List (Int × String)) :
    Except ParseFailure Json :=
  repairGrading (completion (buildGradingPrompt pdf_text questions user_answers))

/-- An f-string interpolation of `dict.get(k)`: `str()` of the value, the
text `None` when the key is absent. -/
def pyFormatField : Option Json → String
  | none => "None"
  | some j => pyStr j

/-- The results header metric (line 293):
`f"\x7bgrading.get(\x27total_score\x27)\x7d / \x7bgrading.get(\x27max_score\x27)\x7d"`. -/
def scoreMetric (grading : Json) : String :=
  pyFormatField (jget grading "total_score") ++ " / " ++
  pyFormatField (jget grading "max_score")

/-! ## Session state and the module-level handlers -/

/-- The `st.session_state` keys this page touches.  `questions`,
`pdf_text` and `generated_from_filename` are initialised to `None` at
lines 212–217; `grading` is only ever written at line 284 and read with
`.get` (so it is absent, modelled `none`, until the first evaluation). -/
structure SessionState where
  questions : Option (List Question)
  pdf_text : Option String
  generated_from_filename : Option String
  grading : Option Json

/-- The initial session state (lines 212–217). -/
def initialState : SessionState :=
  { questions := none, pdf_text := none, generated_from_filename := none, grading := none }

/-- The upload handler, lines 227–238, for a successfully extracted upload:
store the extracted text and, when the file name differs from the one the
current questions were generated from, clear the stored questions and
record the new name.  No other key is written. -/
def handleUpload (st : SessionState) (filename : String) (text : String) : SessionState :=
  let st1 := { st with pdf_text := some text }
  if st1.generated_from_filename ≠ some filename then
    { st1 with questions := none, generated_from_filename := some filename }
  else st1

/-- The `Clear generated questions` button handler, lines 254–258. -/
def handleClearQuestions (st : SessionState) : SessionState :=
  { st with questions := none }

/-- A successful `Generate Questions` click (lines 245–250). -/
def handleGenerate (st : SessionState) (qs : List Question) : SessionState :=
  { st with questions := some qs }

/-- A successful `Submit answers for evaluation` click (lines 280–285). -/
def handleEvaluate (st : SessionState) (grading : Json) : SessionState :=
  { st with grading := some grading }

/-! ## Multiple-choice rendering (lines 266–275) -/

/-- `labels = ["A", "B", "C", "D", "E", "F"]` (line 269). -/
def labels : List String := ["A", "B", "C", "D", "E", "F"]

/-- The dict comprehension at line 270, `\x7blabels[i]: opt for i, opt in
enumerate(q.options)\x7d`; `labels[i]` raises `IndexError` (modelled `none`)
when `i` is out of range. -/
def buildOptMap (options : List String) : Option (List (String × String)) :=
  optionMapList (fun p => (labels.get? p.1).map (fun lab => (lab, p.2))) options.enum

/-- The list comprehension at line 271,
`[f"\x7blabels[i]\x7d. \x7bopt\x7d" for i, opt in enumerate(q.options)]`. -/
def buildChoicesDisplay (options : List String) : Option (List String) :=
  optionMapList (fun p => (labels.get? p.1).map (fun lab => lab ++ ". " ++ p.2)) options.enum

/-- Rendering the answer widget for one multiple-choice question: both
comprehensions must succeed. -/
def renderMcqChoices (options : List String) : Option (List (String × String) × List String) :=
  match buildOptMap options, buildChoicesDisplay options with
  | some m, some d => some (m, d)
  | _, _ => none

/-! ## `chunk_text` (src/pages/PDF_Summarizer.py, lines 28–29) -/

/-- Python `range(start, stop, step)` for a nonnegative ascending range. -/
def rangeStep (start stop step : Nat) : List Nat :=
  if h : 0 < step ∧ start < stop then
    start :: rangeStep (start + step) stop step
  else []
termination_by stop - start
decreasing_by
  exact Nat.sub_lt_sub_left h.2 (Nat.lt_add_of_pos_right h.1)

/-- `chunk_text`: `[text[i:i + max_chars] for i in range(0, len(text), max_chars)]`. -/
def chunk_text (text : List Char) (max_chars : Nat) : List (List Char) :=
  (rangeStep 0 text.length max_chars).map (fun i => (text.drop i).take max_chars)

/-! ## Reference definitions written from the specification

These are *not* translations of the source: they follow the words of the
spec, to be compared against the source-derived definitions above. -/

/-- Modelled from the spec (§4.3 step 1): strip leading/trailing code-fence
markers, surrounding backticks and whitespace. -/
def stripWrappers (raw : String) : String :=
  let l := (pyStrip raw).data
  let l2 := l.dropWhile (fun c => c = '`')
  let l3 := if l2 ≠ l ∧ l2.take 4 = "json".data then l2.drop 4 else l2
  let l4 := (l3.reverse.dropWhile (fun c => c = '`')).reverse
  pyStrip (String.mk l4)

/-- Modelled from the spec (§4.3 step 2): remove any comma whose next
non-whitespace character is a closing `]` or `\x7d`. -/
def removeTrailingCommas : List Char → List Char
  | [] => []
  | c :: rest =>
    if c = ',' ∧ ((skipWs rest).head? = some ']' ∨ (skipWs rest).head? = some '\x7d')
    then removeTrailingCommas rest
    else c :: removeTrailingCommas rest

/-- Modelled from the spec (§4.3 steps 3–5): decode the cleaned string
directly; on failure extract from the first `[`/`\x7b` to the last matching
`]`/`\x7d` and decode that substring; `none` is the `ParseError` outcome. -/
def specRepair (raw : String) : Option Json :=
  let cleaned := String.mk (removeTrailingCommas (stripWrappers raw).data)
  match json_loads cleaned with
  | some v => some v
  | none =>
    let l := cleaned.data
    match l.findIdx? (fun c => c = '[' ∨ c = '\x7b') with
    | none => none
    | some i =>
      let closer := if l.getD i ' ' = '[' then ']' else '\x7d'
      match lastIdx closer l with
      | none => none
      | some j => json_loads (String.mk (pySliceList l i (j + 1)))

/-- Second tier of `referenceQuestionRepair`: whitespace-strip, then
extraction from the first `[` to the last `]` and decode, an error carrying
the raw text when no such pair exists. -/
def referenceBracketTier (raw : String) : Except ParseFailure Json :=
  let cleaned := pyStrip raw
  match firstIdx '[' cleaned.data, lastIdx ']' cleaned.data with
  | some s, some e =>
    match json_loads (String.mk (pySliceList cleaned.data s (e + 1))) with
    | some v => Except.ok v
    | none => Except.error (ParseFailure.decodeError (String.mk (pySliceList cleaned.data s (e + 1))))
  | some _, none => Except.error (ParseFailure.noJsonFound raw)
  | none, _ => Except.error (ParseFailure.noJsonFound raw)

/-- The question-path repair as the amended claim words it: a direct decode
of the raw completion unchanged, and on failure the bracket-extraction tier
(no fence or trailing-comma removal, no `\x7b` handling). -/
def referenceQuestionRepair (raw : String) : Except ParseFailure Json :=
  match json_loads raw with
  | some v => Except.ok v
  | none => referenceBracketTier raw

/-- Python `str.lower()` (character-wise). -/
def pyLower (s : String) : String :=
  String.mk (s.data.map Char.toLower)

/-- Python `str.startswith(pre)`. -/
def pyStartsWith (s pre : String) : Bool :=
  pre.data.isPrefixOf s.data

/-- The code's multiple-choice test (line 266): `q.qtype.lower().startswith("mc")`. -/
def isMcq (q : Question) : Bool :=
  match q.qtype with
  | some t => pyStartsWith (pyLower t) "mc"
  | none => false

/-- The submitted answer for a question id. -/
def answerLookup (ans : List (Int × String)) (i : Int) : Option String :=
  (ans.find? (fun p => p.1 = i)).map Prod.snd

/-- Modelled from the spec (§4.5): a multiple-choice response is correct iff
the user answer equals the stored expected answer after trimming
leading/trailing whitespace from both, case-sensitively. -/
def mcqCorrect (q : Question) (ans : List (Int × String)) : Bool :=
  match q.correct_answer, answerLookup ans q.id with
  | some ca, some ua => pyStrip ua = pyStrip ca
  | _, _ => false

/-- Modelled from the spec (§4.5 / C4): the aggregate score the spec asks
for — correctly answered multiple-choice count over multiple-choice count. -/
def mcqLocalScore (qs : List Question) (ans : List (Int × String)) : Nat × Nat :=
  ((qs.filter isMcq).countP (fun q => mcqCorrect q ans), (qs.filter isMcq).length)

/-! ## Concrete values used by the claim theorems -/

/-- A decoded question record whose declared answer is not among its five
options — nothing in the construction loop rejects or repairs it. -/
def badMcqRecord : Json :=
  Json.obj [("id", Json.num 1 0), ("type", Json.str "mcq"),
    ("question", Json.str "Pick"),
    ("options", Json.arr [Json.str "a", Json.str "b", Json.str "c",
      Json.str "d", Json.str "e"]),
    ("answer", Json.str "z")]

/-- The `Question` the loop builds from `badMcqRecord`. -/
def badMcqQuestion : Question :=
  { id := 1, qtype := some "mcq", question := some "Pick",
    options := ["a", "b", "c", "d", "e"], correct_answer := some "z",
    explanation := none }

/-- A well-formed multiple-choice question with expected answer `A`. -/
def mcqQuestionA : Question :=
  { id := 1, qtype := some "mcq", question := some "Q", options := ["A", "B"],
    correct_answer := some "A", explanation := none }

/-- A grading completion reply scoring question 1 with 0. -/
def gradeReplyScore0 : String :=
  "\x7b\"total_score\": 0, \"max_score\": 1, \"per_question\": [\x7b\"id\": 1, \"score\": 0, \"feedback\": \"wrong\"\x7d]\x7d"

/-- A grading completion reply scoring question 1 with 1. -/
def gradeReplyScore1 : String :=
  "\x7b\"total_score\": 1, \"max_score\": 1, \"per_question\": [\x7b\"id\": 1, \"score\": 1, \"feedback\": \"ok\"\x7d]\x7d"

/-- The decoded form of `gradeReplyScore1`. -/
def gradeJson1 : Json :=
  Json.obj [("total_score", Json.num 1 0), ("max_score", Json.num 1 0),
    ("per_question", Json.arr [Json.obj [("id", Json.num 1 0),
      ("score", Json.num 1 0), ("feedback", Json.str "ok")]])]

/-- The score the results loop (lines 294–299) shows for question `qid`:
the `score` field of the `per_question` entry with that id. -/
def perQuestionScore (grading : Json) (qid : Int) : Option Json :=
  match jget grading "per_question" with
  | some (Json.arr items) =>
    match items.find? (fun it => pyIntOfField (jget it "id") = some qid) with
    | some it => jget it "score"
    | none => none
  | _ => none

/-- `perQuestionScore` through the grading call's result. -/
def gradedScore (r : Except ParseFailure Json) (qid : Int) : Option Json :=
  match r with
  | Except.ok g => perQuestionScore g qid
  | Except.error _ => none

/-- A session that has generated questions from `old.pdf` and holds a
grading report. -/
def staleState : SessionState :=
  { questions := some [mcqQuestionA], pdf_text := some "old text",
    generated_from_filename := some "old.pdf", grading := some gradeJson1 }

/-- A decoded question record carrying seven options. -/
def sevenOptionRecord : Json :=
  Json.obj [("id", Json.num 2 0), ("type", Json.str "mcq"),
    ("question", Json.str "Choose"),
    ("options", Json.arr [Json.str "o1", Json.str "o2", Json.str "o3",
      Json.str "o4", Json.str "o5", Json.str "o6", Json.str "o7"]),
    ("answer", Json.str "o1")]

/-- The `Question` the loop builds from `sevenOptionRecord`. -/
def sevenOptionQuestion : Question :=
  { id := 2, qtype := some "mcq", question := some "Choose",
    options := ["o1", "o2", "o3", "o4", "o5", "o6", "o7"],
    correct_answer := some "o1", explanation := none }

/-! ## Helper lemmas -/

lemma optionMapList_cons_isSome {α β : Type} (f : α → Option β) (x : α) (xs : List α) :
    (optionMapList f (x :: xs)).isSome ↔ ((f x).isSome ∧ (optionMapList f xs).isSome) := by
  cases hfx : f x <;> cases hrest : optionMapList f xs <;> simp [optionMapList, hfx, hrest]

lemma labels_get_isSome (i : Nat) : (labels.get? i).isSome ↔ i < 6 := by
  have hlen : labels.length = 6 := rfl
  rw [Option.isSome_iff_ne_none, Ne, List.get?_eq_none, hlen]
  omega

lemma optionMapList_label_isSome {β : Type} (f : Nat × String → Option β)
    (hf : ∀ p, (f p).isSome ↔ p.1 < 6) :
    ∀ (opts : List String) (n : Nat),
      (optionMapList f (opts.enumFrom n)).isSome ↔ (opts = [] ∨ n + opts.length ≤ 6) := by
  intro opts
  induction opts with
  | nil => intro n; simp [optionMapList, List.enumFrom]
  | cons a l ih =>
    intro n
    rw [List.enumFrom, optionMapList_cons_isSome, hf, ih (n + 1)]
    by_cases hl : l = []
    · subst hl
      simp
      omega
    · have hlen : 0 < l.length := List.length_pos.mpr hl
      simp only [hl, false_or, List.cons_ne_nil, List.length_cons]
      constructor
      · intro h; omega
      · intro h; omega

lemma mapped_label_isSome {β : Type} (g : Nat × String → String → β) (p : Nat × String) :
    (((labels.get? p.1).map (g p)).isSome ↔ p.1 < 6) := by
  have hiff := labels_get_isSome p.1
  cases h : labels.get? p.1 with
  | none => rw [h] at hiff; simp at hiff ⊢; omega
  | some lab => rw [h] at hiff; simp at hiff ⊢; omega

lemma buildOptMap_isSome (opts : List String) :
    (buildOptMap opts).isSome ↔ opts.length ≤ 6 := by
  unfold buildOptMap
  rw [show opts.enum = opts.enumFrom 0 from rfl]
  rw [optionMapList_label_isSome _ (mapped_label_isSome (fun p lab => (lab, p.2))) opts 0]
  constructor
  · rintro (rfl | h)
    · simp
    · omega
  · intro h; right; omega

lemma buildChoicesDisplay_isSome (opts : List String) :
    (buildChoicesDisplay opts).isSome ↔ opts.length ≤ 6 := by
  unfold buildChoicesDisplay
  rw [show opts.enum = opts.enumFrom 0 from rfl]
  rw [optionMapList_label_isSome _
    (mapped_label_isSome (fun p lab => lab ++ ". " ++ p.2)) opts 0]
  constructor
  · rintro (rfl | h)
    · simp
    · omega
  · intro h; right; omega

lemma join_slices (k : Nat) (hk : 0 < k) (text : List Char) :
    ∀ n s, text.length - s ≤ n →
      (((rangeStep s text.length k).map (fun i => (text.drop i).take k)).flatten = text.drop s) := by
  intro n
  induction n with
  | zero =>
    intro s hs
    have hle : text.length ≤ s := by omega
    rw [rangeStep, dif_neg (by omega)]
    simp [List.drop_eq_nil_of_le hle]
  | succ n ih =>
    intro s hs
    by_cases h : s < text.length
    · rw [rangeStep, dif_pos ⟨hk, h⟩]
      simp only [List.map_cons, List.flatten_cons]
      rw [ih (s + k) (by omega)]
      have hdr : text.drop (s + k) = (text.drop s).drop k := by
        rw [List.drop_drop, Nat.add_comm]
      rw [hdr, List.take_append_drop]
    · rw [rangeStep, dif_neg (by omega)]
      have hle : text.length ≤ s := by omega
      simp [List.drop_eq_nil_of_le hle]

lemma string_append_assoc (a b c : String) : a ++ b ++ c = a ++ (b ++ c) := by
  cases a with
  | mk la =>
    cases b with
    | mk lb =>
      cases c with
      | mk lc =>
        show String.mk (la ++ lb ++ lc) = String.mk (la ++ (lb ++ lc))
        rw [List.append_assoc]

/-! ## Claim theorems -/

/-- C1 (counterexample): on the raw completion `"[1,]"` — a trailing comma
before the closing bracket — the spec reference algorithm removes the comma
and decodes `[1]`, while the code (which never removes trailing commas and
only retries on the `[`..`]` substring) fails; so the code's result does not
equal the reference algorithm's result on every input. -/
theorem questionRepair_spec_algorithm_counterexample :
    exceptToOption (repairQuestions "[1,]") = none ∧
    specRepair "[1,]" = some (Json.arr [Json.num 1 0]) ∧
    exceptToOption (repairQuestions "[1,]") ≠ specRepair "[1,]" := by
  refine ⟨rfl, rfl, ?_⟩
  rw [show exceptToOption (repairQuestions "[1,]") = none from rfl,
      show specRepair "[1,]" = some (Json.arr [Json.num 1 0]) from rfl]
  simp

/-- C1 (amended): for every raw completion, the question-path parser equals
the two-tier reference algorithm that first decodes the raw string
unchanged and, only on failure, strips surrounding whitespace and decodes
the substring from the first `[` to the last `]` — with no code-fence
stripping, no trailing-comma removal and no object-brace extraction. -/
theorem questionRepair_two_tier_amended (raw : String) :
    repairQuestions raw = referenceQuestionRepair raw := by
  unfold repairQuestions referenceQuestionRepair referenceBracketTier
  cases h : json_loads raw <;> rfl

/-- C2 (counterexample): the construction loop accepts a multiple-choice
record whose declared answer `"z"` is not among its five options; the built
`Question` keeps the foreign answer and the over-long option list, so the
claimed invariant (`expected_answer ∈ options` and at most 4 options) fails. -/
theorem mcq_invariant_counterexample :
    mkQuestion badMcqRecord = some badMcqQuestion ∧
    badMcqQuestion.qtype = some "mcq" ∧
    badMcqQuestion.correct_answer = some "z" ∧
    "z" ∉ badMcqQuestion.options ∧
    4 < badMcqQuestion.options.length :=
  ⟨rfl, rfl, rfl, by decide, by decide⟩

/-- C2 (amended): the construction loop performs no normalization — every
`Question` it builds carries exactly the upstream record's options list
(empty when the field is absent or null) and exactly the record's answer
field; neither membership of the answer in the options nor the 4-option
bound is enforced anywhere. -/
theorem question_fields_copied_verbatim (obj : Json) (q : Question)
    (h : mkQuestion obj = some q) :
    optionsField (jget obj "options") = some q.options ∧
    answerField (jget obj "answer") = q.correct_answer := by
  unfold mkQuestion at h
  split at h
  · rename_i i t qq opts ex h1 h2 h3 h4 h5
    cases h
    exact ⟨h4, rfl⟩
  · simp at h

/-- Witness for `question_fields_copied_verbatim` at `badMcqRecord`. -/
theorem question_fields_copied_verbatim_witness :
    mkQuestion badMcqRecord = some badMcqQuestion ∧
    (optionsField (jget badMcqRecord "options") = some badMcqQuestion.options ∧
      answerField (jget badMcqRecord "answer") = badMcqQuestion.correct_answer) :=
  ⟨rfl, question_fields_copied_verbatim badMcqRecord badMcqQuestion rfl⟩

/-- C3 (counterexample): for the same multiple-choice question, with the
user's answer exactly equal to the stored expected answer (so trim-equal),
two different completion replies produce verdict scores 0 and 1: the
verdict is whatever the completion service returns, not a local
deterministic trim-and-compare (which would have to report correct here). -/
theorem mcq_grading_not_local_counterexample :
    gradedScore (ask_gemini_to_grade (fun _ => gradeReplyScore0) "doc"
      [mcqQuestionA] [(1, "A")]) 1 = some (Json.num 0 0) ∧
    gradedScore (ask_gemini_to_grade (fun _ => gradeReplyScore1) "doc"
      [mcqQuestionA] [(1, "A")]) 1 = some (Json.num 1 0) ∧
    pyStrip "A" = pyStrip (mcqQuestionA.correct_answer.getD "") ∧
    some (Json.num 0 0) ≠ some (Json.num 1 0) := by
  refine ⟨rfl, rfl, rfl, ?_⟩
  intro hc
  injection hc with hc
  injection hc with hm he
  exact absurd hm (by decide)

/-- C3 (amended): grading, multiple-choice items included, is delegated
wholesale to the completion service — the grading result is exactly the
repaired decode of the completion's reply to the grading prompt, and for a
fixed reply it does not depend on the questions, the user answers, or the
document; no local string comparison is performed. -/
theorem grading_fully_delegated (completion : String → String) (pdf_text : String)
    (questions : List Question) (user_answers : List (Int × String)) :
    (ask_gemini_to_grade completion pdf_text questions user_answers =
      repairGrading (completion (buildGradingPrompt pdf_text questions user_answers))) ∧
    (∀ reply pdf2 qs2 ans2,
      ask_gemini_to_grade (fun _ => reply) pdf_text questions user_answers =
        ask_gemini_to_grade (fun _ => reply) pdf2 qs2 ans2) :=
  ⟨rfl, fun _ _ _ _ => rfl⟩

/-- C4 (counterexample): with one multiple-choice question answered
incorrectly (locally 0 of 1 correct), a completion reply reporting
`total_score: 1, max_score: 1` makes the results header show `1 / 1` —
the aggregate is the reply's totals, not the local correct-MCQ count over
MCQ count, and nothing prevents open-form partial credit in the total. -/
theorem aggregate_score_counterexample :
    ask_gemini_to_grade (fun _ => gradeReplyScore1) "doc" [mcqQuestionA]
      [(1, "B")] = Except.ok gradeJson1 ∧
    scoreMetric gradeJson1 = "1 / 1" ∧
    mcqLocalScore [mcqQuestionA] [(1, "B")] = (0, 1) ∧
    ("1 / 1" : String) ≠ "0 / 1" :=
  ⟨rfl, rfl, by decide, by decide⟩

/-- C4 (amended): whenever grading succeeds, the decoded report is exactly
the repaired decode of the completion reply, and the score the results
header shows is the reply's `total_score` and `max_score` fields formatted
verbatim. -/
theorem aggregate_score_is_reply_total (reply pdf_text : String)
    (questions : List Question) (user_answers : List (Int × String)) (g : Json)
    (h : ask_gemini_to_grade (fun _ => reply) pdf_text questions user_answers =
      Except.ok g) :
    repairGrading reply = Except.ok g ∧
    scoreMetric g = pyFormatField (jget g "total_score") ++ " / " ++
      pyFormatField (jget g "max_score") :=
  ⟨h, rfl⟩

/-- Witness for `aggregate_score_is_reply_total`. -/
theorem aggregate_score_is_reply_total_witness :
    (ask_gemini_to_grade (fun _ => gradeReplyScore1) "docB" [mcqQuestionA]
      [(1, "B")] = Except.ok gradeJson1) ∧
    (repairGrading gradeReplyScore1 = Except.ok gradeJson1 ∧
      scoreMetric gradeJson1 = pyFormatField (jget gradeJson1 "total_score") ++
        " / " ++ pyFormatField (jget gradeJson1 "max_score")) :=
  ⟨rfl, aggregate_score_is_reply_total gradeReplyScore1 "docB" [mcqQuestionA]
    [(1, "B")] gradeJson1 rfl⟩

/-- C5 (counterexample): uploading a document with a new name clears the
stored questions but leaves the stored grading report in place — the
claimed clearing of the GradingReport (and of any answer record) does not
happen. -/
theorem upload_keeps_grading_counterexample :
    (handleUpload staleState "new.pdf" "new text").questions = none ∧
    (handleUpload staleState "new.pdf" "new text").grading = some gradeJson1 ∧
    (some gradeJson1 : Option Json) ≠ none := by
  refine ⟨rfl, rfl, ?_⟩
  simp

/-- C5 (amended): uploading a document whose name differs from the one the
current questions were generated from stores the new text, clears only the
stored question set and records the new name; every other session key — in
particular the grading report — is left untouched (and no separate answer
record is stored in the session at all). -/
theorem upload_clears_questions_only (st : SessionState) (filename text : String)
    (h : st.generated_from_filename ≠ some filename) :
    handleUpload st filename text =
      { st with pdf_text := some text, questions := none,
                generated_from_filename := some filename } := by
  simp only [handleUpload]
  split
  · rfl
  · next hcond => exact absurd h hcond

/-- Witness for `upload_clears_questions_only` at `staleState`. -/
theorem upload_clears_questions_only_witness :
    staleState.generated_from_filename ≠ some "new.pdf" ∧
    handleUpload staleState "new.pdf" "new text" =
      { staleState with pdf_text := some "new text", questions := none,
                        generated_from_filename := some "new.pdf" } :=
  ⟨by decide, upload_clears_questions_only staleState "new.pdf" "new text" (by decide)⟩

/-- C6 (counterexample): on `"x[oops]y"` every decode attempt fails, but a
bracket pair is present, so the failure is the decode error of the
extracted substring `"[oops]"`, which does not carry the original raw
completion — the raw text is not retrievable from every total-failure
error. -/
theorem parseFailure_raw_counterexample :
    repairQuestions "x[oops]y" = Except.error (ParseFailure.decodeError "[oops]") ∧
    rawCarried (ParseFailure.decodeError "[oops]") ≠ some "x[oops]y" :=
  ⟨rfl, by decide⟩

/-- C6 (amended): when the direct decode fails and the stripped completion
has no `[`..`]` pair to extract, the parser raises the error that embeds
the whole raw completion for display; it never returns a value on failure. -/
theorem parseFailure_raw_when_no_brackets (raw : String)
    (hdec : json_loads raw = none)
    (hbr : firstIdx '[' (pyStrip raw).data = none ∨
      lastIdx ']' (pyStrip raw).data = none) :
    repairQuestions raw = Except.error (ParseFailure.noJsonFound raw) := by
  simp only [repairQuestions, hdec]
  rcases hbr with h | h
  · rw [h]
  · cases hf : firstIdx '[' (pyStrip raw).data
    · rfl
    · rw [h]

/-- Witness for `parseFailure_raw_when_no_brackets` at the spec's test
input `"not json at all"`. -/
theorem parseFailure_raw_when_no_brackets_witness :
    json_loads "not json at all" = none ∧
    (firstIdx '[' (pyStrip "not json at all").data = none ∨
      lastIdx ']' (pyStrip "not json at all").data = none) ∧
    repairQuestions "not json at all" =
      Except.error (ParseFailure.noJsonFound "not json at all") :=
  ⟨rfl, Or.inl rfl,
    parseFailure_raw_when_no_brackets "not json at all" rfl (Or.inl rfl)⟩

/-- C7: a raw completion that already decodes as JSON is returned exactly
as its direct decode — the repair alters nothing on already-valid input
(idempotent repair). -/
theorem repair_preserves_valid_json (raw : String) (v : Json)
    (h : json_loads raw = some v) :
    repairQuestions raw = Except.ok v := by
  simp only [repairQuestions, h]

/-- Witness for `repair_preserves_valid_json` at `"[1]"`. -/
theorem repair_preserves_valid_json_witness :
    json_loads "[1]" = some (Json.arr [Json.num 1 0]) ∧
    repairQuestions "[1]" = Except.ok (Json.arr [Json.num 1 0]) :=
  ⟨rfl, repair_preserves_valid_json "[1]" (Json.arr [Json.num 1 0]) rfl⟩

/-- C8: both the generation prompt and the grading prompt embed exactly the
slice `pdf_text[:30000]` — a prefix of the document text of length at most
30000 — and the builders are total functions, so longer texts are silently
cut, never rejected. -/
theorem prompts_embed_document_prefix (pdf_text : String) (num_questions : Nat)
    (questions : List Question) (user_answers : List (Int × String)) :
    (∃ tail, buildQuestionPrompt pdf_text num_questions =
        questionPromptHead num_questions ++ pySlice30000 pdf_text ++ tail) ∧
    (∃ tail, buildGradingPrompt pdf_text questions user_answers =
        gradingPromptHead ++ pySlice30000 pdf_text ++ tail) ∧
    (pySlice30000 pdf_text).length ≤ 30000 ∧
    (∃ rest, pySlice30000 pdf_text ++ rest = pdf_text) := by
  refine ⟨⟨questionPromptTail, rfl⟩,
    ⟨gradingPromptMid1 ++ dumpsQList questions ++ gradingPromptMid2 ++
      dumpsAnswers user_answers ++ gradingPromptTail, ?_⟩, ?_,
    ⟨String.mk (pdf_text.data.drop 30000), ?_⟩⟩
  · simp only [buildGradingPrompt, string_append_assoc]
  · show (pdf_text.data.take 30000).length ≤ 30000
    rw [List.length_take]
    exact Nat.min_le_left _ _
  · show String.mk (pdf_text.data.take 30000 ++ pdf_text.data.drop 30000) = pdf_text
    rw [List.take_append_drop]

/-- C9: building the labelled answer choices for a multiple-choice question
succeeds exactly when the question has at most 6 options (the fixed label
list is `A`–`F`), and the construction loop happily produces a question
with 7 options, on which the rendering fails with an index error. -/
theorem mcq_render_at_most_six :
    (∀ opts : List String, (renderMcqChoices opts).isSome ↔ opts.length ≤ 6) ∧
    (mkQuestion sevenOptionRecord = some sevenOptionQuestion ∧
      6 < sevenOptionQuestion.options.length ∧
      renderMcqChoices sevenOptionQuestion.options = none) := by
  refine ⟨?_, rfl, by decide, rfl⟩
  intro opts
  unfold renderMcqChoices
  have h1 := buildOptMap_isSome opts
  have h2 := buildChoicesDisplay_isSome opts
  cases hm : buildOptMap opts <;> cases hd : buildChoicesDisplay opts <;> simp_all <;> omega

/-- C10: for every input text and positive chunk size, `chunk_text` returns
chunks each of length at most the chunk size whose in-order concatenation
is the input text; on the empty string it returns the empty list. -/
theorem chunk_text_bounded_concat (text : List Char) (k : Nat) (hk : 0 < k) :
    (∀ c ∈ chunk_text text k, c.length ≤ k) ∧
    (chunk_text text k).flatten = text ∧ chunk_text [] k = [] := by
  refine ⟨?_, ?_, ?_⟩
  · intro c hc
    simp only [chunk_text, List.mem_map] at hc
    obtain ⟨i, -, rfl⟩ := hc
    rw [List.length_take]
    exact Nat.min_le_left _ _
  · simpa [chunk_text] using join_slices k hk text text.length 0 (by omega)
  · simp [chunk_text, rangeStep]

/-- Witness for `chunk_text_bounded_concat` at `"abcde"` with chunk size 2. -/
theorem chunk_text_bounded_concat_witness :
    0 < 2 ∧ ((∀ c ∈ chunk_text "abcde".data 2, c.length ≤ 2) ∧
      (chunk_text "abcde".data 2).flatten = "abcde".data ∧
      chunk_text [] 2 = []) :=
  ⟨by decide, chunk_text_bounded_concat "abcde".data 2 (by decide)⟩
